import Mathlib

/-!
Verification of the image style-transfer front end (`index.js` handlers and
`sw.js` service worker) as a shallow embedding: each JavaScript handler
becomes a pure Lean function on an explicit state record, asynchronous
boundaries (file read, remote call) become explicit outcome parameters, and
DOM element attributes (`hidden` class, `disabled`, text content) become
record fields.
-/

namespace StyleTransfer

/-- JavaScript truthiness for a nullable string: `null` and `""` are falsy. -/
def jsTruthy : Option String → Bool
  | none => false
  | some s => !s.data.isEmpty

/-- Whether the first character list begins the second one. -/
def beginsWith : List Char → List Char → Bool
  | [], _ => true
  | _ :: _, [] => false
  | p :: ps, c :: cs => (p = c) && beginsWith ps cs

/-- JavaScript `String.prototype.startsWith`. -/
def jsStartsWith (s pat : String) : Bool :=
  beginsWith pat.data s.data

/-- The mutable page state touched by the handlers in `index.js`: the two
module-level variables plus the attributes of each DOM element the code
reads or writes.  A `...Hidden` field is true when the element's class list
contains `hidden`. -/
structure AppState where
  base64ImageData : Option String
  mimeType : Option String
  imagePreviewSrc : String
  imagePreviewHidden : Bool
  previewPlaceholderHidden : Bool
  generateBtnDisabled : Bool
  cameraBtnDisabled : Bool
  uploadLabelAriaDisabled : Bool
  loaderHidden : Bool
  generatedImageSrc : String
  generatedImageHidden : Bool
  outputPlaceholderText : String
  outputPlaceholderColor : String
  outputPlaceholderHidden : Bool
  downloadBtnHidden : Bool
  imageUploadValue : String
  deriving Repr, DecidableEq

/-- `showError(message)`: write the message into the output placeholder,
show it, and hide the generated image and the download button. -/
def showError (s : AppState) (message : String) : AppState :=
  { s with
    outputPlaceholderText := "Error: " ++ message
    outputPlaceholderColor := "var(--error-color)"
    outputPlaceholderHidden := false
    generatedImageHidden := true
    downloadBtnHidden := true }

/-- `setLoading(isLoading)`: toggle the busy UI.  Note that
`downloadBtn.classList.add('hidden')` is executed unconditionally, before
the `if (isLoading)` branch. -/
def setLoading (s : AppState) (isLoading : Bool) : AppState :=
  let s1 := { s with generateBtnDisabled := isLoading, cameraBtnDisabled := isLoading }
  let s2 :=
    if isLoading then { s1 with uploadLabelAriaDisabled := true }
    else { s1 with uploadLabelAriaDisabled := false }
  let s3 := { s2 with downloadBtnHidden := true }
  if isLoading then
    { s3 with loaderHidden := false, generatedImageHidden := true, outputPlaceholderHidden := true }
  else
    { s3 with loaderHidden := true }

/-- One part of the remote response: either inline binary data
(`data`, `mimeType`) or text (ignored by the handler). -/
structure Part where
  inlineData : Option (String × String)
  text : Option String
  deriving Repr, DecidableEq

/-- The outcome of the awaited `ai.models.generateContent` call: either the
(possibly empty) list of parts of the first candidate's content, or a
thrown error. -/
inductive RemoteOutcome where
  | ok (parts : List Part)
  | error
  deriving Repr, DecidableEq

/-- The observable result of one `handleGenerateClick` invocation: the final
state, whether the remote call was issued, and — when it was — the state in
force while the request was in flight (`midLoading`). -/
structure GenOutcome where
  final : AppState
  remoteCalled : Bool
  midLoading : Option AppState
  deriving Repr, DecidableEq

/-- The `for (const part of parts)` loop: render the first part carrying
`inlineData` and stop; the returned flag is `imageFound`. -/
def renderFirstImage (s : AppState) : List Part → AppState × Bool
  | [] => (s, false)
  | p :: ps =>
    match p.inlineData with
    | some (data, responseMimeType) =>
      ({ s with
          generatedImageSrc := "data:" ++ responseMimeType ++ ";base64," ++ data
          generatedImageHidden := false
          outputPlaceholderHidden := true
          downloadBtnHidden := false }, true)
    | none => renderFirstImage s ps

/-- `handleGenerateClick()`: guard on the two state variables, enter the
loading state, await the remote call (its outcome passed explicitly),
render the first inline part or show an error, and clear the loading state
in the `finally` block. -/
def handleGenerateClick (s : AppState) (outcome : RemoteOutcome) : GenOutcome :=
  if !(jsTruthy s.base64ImageData) || !(jsTruthy s.mimeType) then
    { final := showError s "Please upload an image first."
      remoteCalled := false
      midLoading := none }
  else
    let sL := setLoading s true
    let s2 :=
      match outcome with
      | .error =>
        showError sL "Failed to generate image. Please check your connection and try again."
      | .ok parts =>
        let r := renderFirstImage sL parts
        if r.2 then r.1
        else showError r.1 "The model did not return an image. Please try again."
    { final := setLoading s2 false
      remoteCalled := true
      midLoading := some sL }

/-- A click on the generate button as the browser dispatches it: a disabled
button fires no handler, so the click is a no-op. -/
def clickGenerate (s : AppState) (outcome : RemoteOutcome) : GenOutcome :=
  if s.generateBtnDisabled then
    { final := s, remoteCalled := false, midLoading := none }
  else
    handleGenerateClick s outcome

/-- The awaited result of `fileToGenerativePart` inside `handleImageUpload`:
the promise resolves with `{ mimeType: file.type, data }` or rejects. -/
inductive ReadOutcome where
  | success (fileType : String) (data : String)
  | failure
  deriving Repr, DecidableEq

/-- `handleImageUpload()`: no selected file is a no-op; otherwise store the
pair on success (enabling generation and showing the preview) or show a
generic error on failure, and reset the input value in the `finally`
block either way. -/
def handleImageUpload (s : AppState) (file : Option ReadOutcome) : AppState :=
  match file with
  | none => s
  | some outcome =>
    let s2 :=
      match outcome with
      | .success fileType data =>
        { s with
            base64ImageData := some data
            mimeType := some fileType
            imagePreviewSrc := "data:" ++ fileType ++ ";base64," ++ data
            imagePreviewHidden := false
            previewPlaceholderHidden := true
            generateBtnDisabled := false }
      | .failure => showError s "Could not process the uploaded file."
    { s2 with imageUploadValue := "" }

/-- Split a character list at the first `';'`: the characters before it and
the characters after it, or `none` when no `';'` occurs. -/
def splitAtSemi : List Char → Option (List Char × List Char)
  | [] => none
  | c :: cs =>
    if c = ';' then some ([], cs)
    else
      match splitAtSemi cs with
      | some (pre, post) => some (c :: pre, post)
      | none => none

/-- Attempt the regex `data:([^;]+);` at the start of the list: the literal
`data:`, then a non-empty greedy run of non-`';'` characters, then `';'`;
the capture is that run. -/
def matchDataHere : List Char → Option (List Char)
  | 'd' :: 'a' :: 't' :: 'a' :: ':' :: rest =>
    match splitAtSemi rest with
    | some (run, _) => if run.isEmpty then none else some run
    | none => none
  | _ => none

/-- JavaScript `imageUrl.match(/data:([^;]+);/)?.[1]`: try the pattern at
each successive start position and return the first capture. -/
def scanDataMime : List Char → Option (List Char)
  | [] => none
  | c :: cs =>
    match matchDataHere (c :: cs) with
    | some cap => some cap
    | none => scanDataMime cs

/-- JavaScript `split('/')` on a character list: the (never empty) list of
chunks between `'/'` separators. -/
def splitOnSlash : List Char → List (List Char)
  | [] => [[]]
  | c :: cs =>
    let r := splitOnSlash cs
    if c = '/' then [] :: r
    else
      match r with
      | [] => [[c]]
      | h :: t => (c :: h) :: t

/-- `mimeType.split('/')[1] || 'png'`: the second chunk, with `undefined`
and the empty string both falling back to `"png"`. -/
def extensionOf (mt : List Char) : String :=
  match (splitOnSlash mt).get? 1 with
  | some e => if e.isEmpty then "png" else String.mk e
  | none => "png"

/-- `imageUrl.match(/data:([^;]+);/)?.[1] || 'image/png'`: the extracted
mime type, with a missing match (and, vacuously, an empty capture) falling
back to `"image/png"`. -/
def mimeOfUrl (url : String) : String :=
  match scanDataMime url.data with
  | some cap => if cap.isEmpty then "image/png" else String.mk cap
  | none => "image/png"

/-- `handleDownloadClick()`: refuse unless the displayed source is a data
URI, else derive the extension from the URI's mime type (default
`image/png` when the pattern does not match) and trigger a download named
`stylized-image-<Date.now()>.<ext>`.  `now` stands for `Date.now()`; the
second component is the filename of the triggered download, `none` when no
download happens. -/
def handleDownloadClick (s : AppState) (now : Nat) : AppState × Option String :=
  let imageUrl := s.generatedImageSrc
  if imageUrl.data.isEmpty || !(jsStartsWith imageUrl "data:") then
    (showError s "No image available to download.", none)
  else
    let extension := extensionOf (mimeOfUrl imageUrl).data
    (s, some ("stylized-image-" ++ toString now ++ "." ++ extension))

/-- A page state as it stands after a successful PNG upload: the two state
variables hold data, the preview is shown, and the generate button is
enabled. -/
def demoState : AppState :=
  { base64ImageData := some "ABC"
    mimeType := some "image/png"
    imagePreviewSrc := "data:image/png;base64,ABC"
    imagePreviewHidden := false
    previewPlaceholderHidden := true
    generateBtnDisabled := false
    cameraBtnDisabled := false
    uploadLabelAriaDisabled := false
    loaderHidden := true
    generatedImageSrc := ""
    generatedImageHidden := true
    outputPlaceholderText := ""
    outputPlaceholderColor := ""
    outputPlaceholderHidden := false
    downloadBtnHidden := true
    imageUploadValue := "" }

/-- The page state at load time: no upload yet, generate button disabled. -/
def freshState : AppState :=
  { base64ImageData := none
    mimeType := none
    imagePreviewSrc := ""
    imagePreviewHidden := true
    previewPlaceholderHidden := false
    generateBtnDisabled := true
    cameraBtnDisabled := false
    uploadLabelAriaDisabled := false
    loaderHidden := true
    generatedImageSrc := ""
    generatedImageHidden := true
    outputPlaceholderText := ""
    outputPlaceholderColor := ""
    outputPlaceholderHidden := false
    downloadBtnHidden := true
    imageUploadValue := "" }

/-- A response part carrying inline PNG data. -/
def demoInlinePart : Part :=
  { inlineData := some ("XYZ", "image/png"), text := none }

/-- A response part carrying only text. -/
def demoTextPart : Part :=
  { inlineData := none, text := some "a caption" }

end StyleTransfer

namespace ServiceWorker

/-- The named cache: a list of (request URL, stored response body) pairs, as
populated at install time from the manifest. -/
structure CacheStore where
  entries : List (String × String)
  deriving Repr, DecidableEq

/-- `caches.match(request)`: the stored response for an exact request
match, if any. -/
def matchCache (c : CacheStore) (req : String) : Option String :=
  (c.entries.find? (fun e => e.1 = req)).map (fun e => e.2)

/-- What one invocation of the `fetch` listener produces: the response
served, whether `fetch(event.request)` was called, and the cache store
afterwards. -/
structure FetchOutcome where
  response : String
  networkCalled : Bool
  cacheAfter : CacheStore
  deriving Repr, DecidableEq

/-- The `fetch` listener of `sw.js`: serve the exact cache match when one
exists, otherwise forward the request to the network; the cache is never
written to. -/
def handleFetch (c : CacheStore) (network : String → String) (req : String) : FetchOutcome :=
  match matchCache c req with
  | some response => { response := response, networkCalled := false, cacheAfter := c }
  | none => { response := network req, networkCalled := true, cacheAfter := c }

/-- A cache store as left by the install phase for two manifest entries. -/
def demoCache : CacheStore :=
  { entries := [("/", "shell"), ("/index.html", "html")] }

end ServiceWorker

open StyleTransfer ServiceWorker

theorem renderFirstImage_skips_no_inline (s : AppState) (ts rest : List Part)
    (h : ∀ q ∈ ts, q.inlineData = none) :
    renderFirstImage s (ts ++ rest) = renderFirstImage s rest := by
  induction ts with
  | nil => rfl
  | cons q ts ih =>
    have hq : q.inlineData = none := h q (List.mem_cons_self q ts)
    have ht : ∀ q' ∈ ts, q'.inlineData = none := fun q' hq' => h q' (List.mem_cons_of_mem q hq')
    simp [renderFirstImage, hq, ih ht]

/-- C9: the shared error-display path `showError` hides the generated image
and the download button and shows the placeholder carrying the error text,
so an error display and a rendered result never coexist. -/
theorem c9_error_display_excludes_result (s : AppState) (msg : String) :
    (showError s msg).generatedImageHidden = true ∧
    (showError s msg).downloadBtnHidden = true ∧
    (showError s msg).outputPlaceholderHidden = false ∧
    (showError s msg).outputPlaceholderText = "Error: " ++ msg := by
  simp [showError]

/-- C3: with image data or mime type absent (JavaScript-falsy), the
generate handler shows the missing-input error, issues no remote call,
never enters the loading state, and leaves the loader exactly as it was. -/
theorem c3_missing_input_never_loads (s : AppState) (outcome : RemoteOutcome)
    (h : jsTruthy s.base64ImageData = false ∨ jsTruthy s.mimeType = false) :
    (handleGenerateClick s outcome).remoteCalled = false ∧
    (handleGenerateClick s outcome).midLoading = none ∧
    (handleGenerateClick s outcome).final = showError s "Please upload an image first." ∧
    (handleGenerateClick s outcome).final.loaderHidden = s.loaderHidden := by
  have hg : (!(jsTruthy s.base64ImageData) || !(jsTruthy s.mimeType)) = true := by
    rcases h with h | h <;> simp [h]
  unfold handleGenerateClick
  simp [hg, showError]

theorem c3_missing_input_never_loads_witness :
    (handleGenerateClick freshState .error).remoteCalled = false ∧
    (handleGenerateClick freshState .error).midLoading = none ∧
    (handleGenerateClick freshState .error).final =
      showError freshState "Please upload an image first." ∧
    (handleGenerateClick freshState .error).final.loaderHidden = freshState.loaderHidden :=
  c3_missing_input_never_loads freshState .error (Or.inl (by decide))

/-- C6: a failed upload surfaces the generic file error and leaves the
stored pair and the generate button exactly as they were, while a
successful upload stores the pair, shows the preview and enables the
generate button. -/
theorem c6_upload_failure_preserves_state (s : AppState) (t d : String) :
    (handleImageUpload s (some .failure)).base64ImageData = s.base64ImageData ∧
    (handleImageUpload s (some .failure)).mimeType = s.mimeType ∧
    (handleImageUpload s (some .failure)).generateBtnDisabled = s.generateBtnDisabled ∧
    (handleImageUpload s (some .failure)).outputPlaceholderText =
      "Error: Could not process the uploaded file." ∧
    (handleImageUpload s (some .failure)).outputPlaceholderHidden = false ∧
    (handleImageUpload s (some (.success t d))).base64ImageData = some d ∧
    (handleImageUpload s (some (.success t d))).mimeType = some t ∧
    (handleImageUpload s (some (.success t d))).generateBtnDisabled = false ∧
    (handleImageUpload s (some (.success t d))).imagePreviewHidden = false := by
  simp [handleImageUpload, showError]

/-- C10: uploading a file whose reported type is the empty string succeeds
(data stored, preview shown, generate enabled), yet the next generate
click fails the truthiness guard and shows the missing-input error, because
the empty mime string is falsy. -/
theorem c10_empty_mime_accepted_then_rejected (s : AppState) (d : String)
    (outcome : RemoteOutcome) :
    (handleImageUpload s (some (.success "" d))).base64ImageData = some d ∧
    (handleImageUpload s (some (.success "" d))).mimeType = some "" ∧
    (handleImageUpload s (some (.success "" d))).generateBtnDisabled = false ∧
    (handleImageUpload s (some (.success "" d))).imagePreviewHidden = false ∧
    (handleGenerateClick (handleImageUpload s (some (.success "" d))) outcome).remoteCalled
      = false ∧
    (handleGenerateClick (handleImageUpload s (some (.success "" d))) outcome).midLoading
      = none ∧
    (handleGenerateClick (handleImageUpload s (some (.success "" d)))
        outcome).final.outputPlaceholderText = "Error: Please upload an image first." := by
  simp [handleImageUpload, handleGenerateClick, jsTruthy, showError]

/-- C1: evaluating the generate handler on a successful response (one text
part, then one inline PNG part): the result is rendered, the loader is
cleared, but the download button is hidden in the final state, because the
`finally` call `setLoading(false)` unconditionally re-adds `hidden` to the
download button after the success branch removed it. -/
theorem c1_success_render_but_download_hidden :
    (handleGenerateClick demoState (.ok [demoTextPart, demoInlinePart])).remoteCalled = true ∧
    (handleGenerateClick demoState
        (.ok [demoTextPart, demoInlinePart])).final.generatedImageSrc =
      "data:image/png;base64,XYZ" ∧
    (handleGenerateClick demoState
        (.ok [demoTextPart, demoInlinePart])).final.generatedImageHidden = false ∧
    (handleGenerateClick demoState
        (.ok [demoTextPart, demoInlinePart])).final.loaderHidden = true ∧
    (handleGenerateClick demoState
        (.ok [demoTextPart, demoInlinePart])).final.downloadBtnHidden = true := by
  decide

/-- C2 counterexample: at the same post-upload state, an image-less
response and a thrown call produce two different user-facing messages, so
the two failure causes are not collapsed into one single message. -/
theorem c2_two_distinct_failure_messages :
    (handleGenerateClick demoState (.ok [])).final.outputPlaceholderText =
      "Error: The model did not return an image. Please try again." ∧
    (handleGenerateClick demoState .error).final.outputPlaceholderText =
      "Error: Failed to generate image. Please check your connection and try again." ∧
    (handleGenerateClick demoState (.ok [])).final.outputPlaceholderText ≠
      (handleGenerateClick demoState .error).final.outputPlaceholderText := by
  decide

/-- C2 amended: both failure causes are reported through the same
error-display path — placeholder shown with an error text, generated image
hidden, download hidden — but with two distinct message texts. -/
theorem c2_both_failures_use_error_display (s : AppState)
    (hd : jsTruthy s.base64ImageData = true) (hm : jsTruthy s.mimeType = true) :
    (handleGenerateClick s (.ok [])).final.outputPlaceholderText =
      "Error: The model did not return an image. Please try again." ∧
    (handleGenerateClick s .error).final.outputPlaceholderText =
      "Error: Failed to generate image. Please check your connection and try again." ∧
    (handleGenerateClick s (.ok [])).final.outputPlaceholderHidden = false ∧
    (handleGenerateClick s .error).final.outputPlaceholderHidden = false ∧
    (handleGenerateClick s (.ok [])).final.generatedImageHidden = true ∧
    (handleGenerateClick s .error).final.generatedImageHidden = true ∧
    (handleGenerateClick s (.ok [])).final.downloadBtnHidden = true ∧
    (handleGenerateClick s .error).final.downloadBtnHidden = true := by
  have hg : (!(jsTruthy s.base64ImageData) || !(jsTruthy s.mimeType)) = false := by
    simp [hd, hm]
  unfold handleGenerateClick
  simp [hg, renderFirstImage, setLoading, showError]

theorem c2_both_failures_use_error_display_witness :
    (handleGenerateClick demoState (.ok [])).final.outputPlaceholderText =
      "Error: The model did not return an image. Please try again." :=
  (c2_both_failures_use_error_display demoState (by decide) (by decide)).1

/-- C4: on a valid attempt, the first part carrying inline data — after any
number of inline-free (e.g. text) parts — is the one rendered, and a
response with no inline part at all leaves the generated image hidden and
untouched and shows the no-image error instead. -/
theorem c4_first_inline_part_rendered (s : AppState)
    (hd : jsTruthy s.base64ImageData = true) (hm : jsTruthy s.mimeType = true)
    (ts rest : List Part) (hts : ∀ q ∈ ts, q.inlineData = none)
    (p : Part) (d m : String) (hp : p.inlineData = some (d, m))
    (parts0 : List Part) (h0 : ∀ q ∈ parts0, q.inlineData = none) :
    ((handleGenerateClick s (.ok (ts ++ p :: rest))).final.generatedImageSrc =
        "data:" ++ m ++ ";base64," ++ d ∧
      (handleGenerateClick s (.ok (ts ++ p :: rest))).final.generatedImageHidden = false ∧
      (handleGenerateClick s (.ok (ts ++ p :: rest))).final.outputPlaceholderHidden = true) ∧
    ((handleGenerateClick s (.ok parts0)).final.generatedImageHidden = true ∧
      (handleGenerateClick s (.ok parts0)).final.generatedImageSrc = s.generatedImageSrc ∧
      (handleGenerateClick s (.ok parts0)).final.outputPlaceholderHidden = false ∧
      (handleGenerateClick s (.ok parts0)).final.outputPlaceholderText =
        "Error: The model did not return an image. Please try again.") := by
  have hg : (!(jsTruthy s.base64ImageData) || !(jsTruthy s.mimeType)) = false := by
    simp [hd, hm]
  have h1 := renderFirstImage_skips_no_inline (setLoading s true) ts (p :: rest) hts
  have h2 : renderFirstImage (setLoading s true) parts0 = (setLoading s true, false) := by
    have h3 := renderFirstImage_skips_no_inline (setLoading s true) parts0 [] h0
    simpa [renderFirstImage] using h3
  unfold handleGenerateClick
  simp only [hg, Bool.false_eq_true, if_false, h1, h2]
  simp only [renderFirstImage, hp]
  simp [setLoading, showError]

theorem c4_first_inline_part_rendered_witness :
    (handleGenerateClick demoState
        (.ok [demoTextPart, demoInlinePart])).final.generatedImageSrc =
      "data:" ++ "image/png" ++ ";base64," ++ "XYZ" :=
  (c4_first_inline_part_rendered demoState (by decide) (by decide)
      [demoTextPart] [] (by decide) demoInlinePart "XYZ" "image/png" (by decide)
      [demoTextPart] (by decide)).1.1

/-- C5: whenever a generate invocation reaches the in-flight state, that
state has the generate button disabled, and a browser click on a disabled
button is a no-op — so a second click during loading starts nothing. -/
theorem c5_loading_click_is_noop (s sL : AppState) (outcome : RemoteOutcome)
    (h : (handleGenerateClick s outcome).midLoading = some sL) :
    sL.generateBtnDisabled = true ∧
    ∀ o2, clickGenerate sL o2 = { final := sL, remoteCalled := false, midLoading := none } := by
  have hsL : sL = setLoading s true := by
    unfold handleGenerateClick at h
    rcases Bool.eq_false_or_eq_true
        (!(jsTruthy s.base64ImageData) || !(jsTruthy s.mimeType)) with hg | hg
    · simp [hg] at h
    · simp [hg] at h
      exact h.symm
  have hdis : sL.generateBtnDisabled = true := by
    rw [hsL]
    simp [setLoading]
  exact ⟨hdis, fun o2 => by simp [clickGenerate, hdis]⟩

theorem c5_loading_click_is_noop_witness :
    (setLoading demoState true).generateBtnDisabled = true ∧
    ∀ o2, clickGenerate (setLoading demoState true) o2 =
      { final := setLoading demoState true, remoteCalled := false, midLoading := none } :=
  c5_loading_click_is_noop demoState (setLoading demoState true) .error (by decide)

/-- C8: the fetch listener serves an exact cache match without calling the
network, forwards a cache miss to the network unmodified, and never writes
the cache in either case. -/
theorem c8_cache_first_policy (c : CacheStore) (network : String → String)
    (hit miss rh : String)
    (hhit : matchCache c hit = some rh) (hmiss : matchCache c miss = none) :
    handleFetch c network hit =
      { response := rh, networkCalled := false, cacheAfter := c } ∧
    handleFetch c network miss =
      { response := network miss, networkCalled := true, cacheAfter := c } := by
  constructor
  · simp [handleFetch, hhit]
  · simp [handleFetch, hmiss]

theorem c8_cache_first_policy_witness :
    handleFetch demoCache (fun _ => "net") "/" =
      { response := "shell", networkCalled := false, cacheAfter := demoCache } ∧
    handleFetch demoCache (fun _ => "net") "/app.js" =
      { response := "net", networkCalled := true, cacheAfter := demoCache } :=
  c8_cache_first_policy demoCache (fun _ => "net") "/" "/app.js" "shell"
    (by decide) (by decide)

theorem splitAtSemi_jpeg (rest : List Char) :
    splitAtSemi ('i' :: 'm' :: 'a' :: 'g' :: 'e' :: '/' :: 'j' :: 'p' :: 'e' :: 'g' :: ';' :: rest)
      = some (['i', 'm', 'a', 'g', 'e', '/', 'j', 'p', 'e', 'g'], rest) := by
  simp [splitAtSemi]

/-- C7: the synthesized download filename is
`stylized-image-<timestamp>.<ext>` with the extension taken from the data
URI's mime subtype: an `image/jpeg` result gives `.jpeg` whatever the
payload, while a data URI with no parsable mime type (no `;`-terminated
match, or an absent mime) falls back to `.png`. -/
theorem c7_download_filename_extension (s : AppState) (now : Nat) (suffix : List Char) :
    (handleDownloadClick { s with generatedImageSrc :=
        (String.mk ("data:image/jpeg;base64,".data ++ suffix)) } now).2 =
      some ("stylized-image-" ++ toString now ++ ".jpeg") ∧
    (handleDownloadClick { s with generatedImageSrc := "data:garbage" } now).2 =
      some ("stylized-image-" ++ toString now ++ ".png") ∧
    (handleDownloadClick { s with generatedImageSrc := "data:;base64,abc" } now).2 =
      some ("stylized-image-" ++ toString now ++ ".png") := by
  have hext : extensionOf ['i', 'm', 'a', 'g', 'e', '/', 'j', 'p', 'e', 'g'] = "jpeg" := by
    decide
  refine ⟨?_, ?_, ?_⟩
  · unfold handleDownloadClick
    simp [jsStartsWith, beginsWith, mimeOfUrl, scanDataMime, matchDataHere, splitAtSemi_jpeg, hext]
    rw [String.append_assoc]
    rfl
  · unfold handleDownloadClick
    simp [jsStartsWith, beginsWith, mimeOfUrl, scanDataMime, matchDataHere, splitAtSemi, extensionOf,
      splitOnSlash]
    rw [String.append_assoc]
    rfl
  · unfold handleDownloadClick
    simp [jsStartsWith, beginsWith, mimeOfUrl, scanDataMime, matchDataHere, splitAtSemi, extensionOf,
      splitOnSlash]
    rw [String.append_assoc]
    rfl
